import Mathlib

/-!
# Verification of the Hashflow taker v3 Python client

Shallow embedding of `src/hashflow/helpers/api.py` (class `HashflowApi`).
The client builds query parameters and JSON bodies, issues HTTP calls
through an `aiohttp` session and unwraps the JSON responses.

Error taxonomy mapping between the design spec and the code:
* `ConfigurationError` / `UsageError` — the code raises the single class
  `InvalidUsage` (imported from `helpers.exceptions`, a module not present
  in the repository snapshot) both at construction time and at call time;
  errors are distinguished by their message.
* `ValidationError` — raised by `validate_chain_id` from the missing
  `helpers.validation` module; modelled from the spec below.
* `RemoteError` — the `aiohttp.ClientResponseError` raised by
  `ClientResponse.raise_for_status`.
* Python `AttributeError` — raised when `self.session` is read before
  `__aenter__` ever set it.

Each operation is embedded as a pure function from the client state, the
call arguments and a network oracle (a function from requests to
responses) to the final client state, the list of HTTP requests actually
issued, and the outcome (normal return value or raised error).
-/

/-- Python/JSON values as they appear in the bodies this client builds and
in the decoded responses (`await r.json()`). -/
inductive Json where
  | null
  | bool (b : Bool)
  | int (n : Int)
  | str (s : String)
  | arr (xs : List Json)
  | obj (fields : List (String × Json))
deriving Repr

/-- First value bound to a key in a JSON object, `none` when the value is
not an object or the key is absent (Python `d[k]` raising `KeyError`). -/
def Json.lookup : Json → String → Option Json
  | .obj fields, k => fields.lookup k
  | _, _ => none

/-- A dynamically typed Python argument, used where the code may be handed
a value of the wrong type (the `chain_id` of the GET endpoints). -/
inductive PyVal where
  | none
  | bool (b : Bool)
  | int (n : Int)
  | str (s : String)
deriving Repr, DecidableEq

/-- Python `str()` on the values above (only the `int` case is ever
reached after validation). -/
def PyVal.pyStr : PyVal → String
  | .none => "None"
  | .bool b => if b then "True" else "False"
  | .int n => toString n
  | .str s => s

/-- The errors an operation of this client can raise.  `invalidUsage` is
`InvalidUsage` from `helpers.exceptions`; `validationError` the failure of
`validate_chain_id`; `clientResponseError` the `aiohttp` error raised by
`raise_for_status`; `attributeError` Python's error for reading an
attribute that was never set; `keyError` Python's error for a missing
dictionary key. -/
inductive ApiError where
  | invalidUsage (msg : String)
  | validationError (msg : String)
  | clientResponseError (status : Nat)
  | attributeError (attr : String)
  | keyError (key : String)
deriving Repr, DecidableEq

/-- Whether an outcome is a raised `InvalidUsage` (the spec's
`UsageError` / `ConfigurationError`). -/
def isUsageFailure : Except ApiError Json → Bool
  | .error (.invalidUsage _) => true
  | _ => false

/-- The state of a `HashflowApi` instance: the attributes set by
`__init__` plus the `session` attribute, which exists only after
`__aenter__` ran. -/
structure ApiState where
  headers : List (String × String)
  host : String
  source : String
  wallet : Option String
  session : Option Unit
deriving Repr, DecidableEq

/-- The second half of `__init__`: once the host is selected, `mode`
determines `source` and `wallet`, any other value raising `InvalidUsage`. -/
def HashflowApi.initMode (mode name auth_key host : String) :
    Except ApiError ApiState :=
  if mode = "wallet" then
    .ok { headers := [("Authorization", auth_key)], host := host,
          source := "api", wallet := some name, session := Option.none }
  else if mode = "taker" then
    .ok { headers := [("Authorization", auth_key)], host := host,
          source := name, wallet := Option.none, session := Option.none }
  else
    .error (.invalidUsage ("Invalid value " ++ mode ++ " for mode"))

/-- `HashflowApi.__init__(mode, name, auth_key, environment)`: selects the
host from `environment` (raising `InvalidUsage` on an unrecognised value),
then sets `source` and `wallet` from `mode`. -/
def HashflowApi.init (mode name auth_key environment : String) :
    Except ApiError ApiState :=
  if environment = "production" then
    HashflowApi.initMode mode name auth_key "https://api.hashflow.com"
  else if environment = "staging" then
    HashflowApi.initMode mode name auth_key "https://api-staging.hashflow.com"
  else
    .error (.invalidUsage ("Invalid value " ++ environment ++ " for environment"))

/-- `HashflowApi.__aenter__`: opens the `aiohttp.ClientSession` and stores
it in `self.session`. -/
def HashflowApi.aenter (st : ApiState) : ApiState :=
  { st with session := some () }

/-- Modelled from the spec: `validate_chain_id` comes from the
`helpers.validation` module, which is not in the repository snapshot.
Per the spec, "chainId must be a positive integer" and the operations
raise `ValidationError` "if chainId fails validation (non-positive or
wrong type) — checked before any network call". -/
def validate_chain_id (v : PyVal) : Except ApiError Unit :=
  match v with
  | .int n => if 0 < n then pure () else
      throw (.validationError ("Invalid chain id " ++ toString n))
  | _ => throw (.validationError "Chain id must be an integer")

/-- A query-parameter value as stored in the Python `params` dict: either
a single string or a list of strings (`aiohttp` repeats the key once for
every element of a list value). -/
inductive ParamVal where
  | str (s : String)
  | list (xs : List String)
deriving Repr, DecidableEq

/-- The `aiohttp` encoding of a params dict into query pairs: a string
value yields one pair, a list value repeats the key once per element. -/
def expandParams : List (String × ParamVal) → List (String × String)
  | [] => []
  | (k, .str s) :: rest => (k, s) :: expandParams rest
  | (k, .list xs) :: rest => xs.map (fun x => (k, x)) ++ expandParams rest

/-- An HTTP request as issued through the session. -/
structure HttpRequest where
  method : String
  url : String
  headers : List (String × String)
  params : List (String × String)
  jsonBody : Option Json
deriving Repr

/-- An HTTP response: its status code and decoded JSON body. -/
structure Response where
  status : Nat
  body : Json
deriving Repr

/-- `aiohttp.ClientResponse.raise_for_status()`: raises
`ClientResponseError` when the status is 400 or higher.  The error
carries the status code (and reason phrase); the response body has not
been read at that point and is not part of the error. -/
def raise_for_status (r : Response) : Except ApiError Unit :=
  if 400 ≤ r.status then throw (.clientResponseError r.status) else pure ()

/-- The result of one operation: the client state afterwards, the HTTP
requests issued (in order), and the returned value or raised error. -/
structure OpResult where
  state : ApiState
  requests : List HttpRequest
  outcome : Except ApiError Json
deriving Repr

/-- `dict[key]` on a decoded JSON response: raises `KeyError` when the
key is absent. -/
def jsonIndex (j : Json) (key : String) : Except ApiError Json :=
  match j.lookup key with
  | some v => pure v
  | Option.none => throw (.keyError key)

/-- The shared tail of each operation: read `self.session` (raising
`AttributeError` when it was never set), send the request, call
`raise_for_status` on the response and, on success, extract the return
value from the decoded body. -/
def doRequest (st : ApiState) (req : HttpRequest) (net : HttpRequest → Response)
    (extract : Json → Except ApiError Json) : OpResult :=
  match st.session with
  | Option.none => ⟨st, [], .error (.attributeError "session")⟩
  | some _ =>
    match raise_for_status (net req) with
    | .error e => ⟨st, [req], .error e⟩
    | .ok _ => ⟨st, [req], extract (net req).body⟩

/-- The `params` dict built by `get_market_makers`: the three fixed
entries plus `wallet` and `marketMaker` exactly when those arguments were
passed. -/
def marketMakersParams (source : String) (chain_id : PyVal)
    (wallet market_maker : Option String) : List (String × ParamVal) :=
  [("source", .str source),
   ("baseChainType", .str "evm"),
   ("baseChainId", .str chain_id.pyStr)]
  ++ (match wallet with
      | some w => [("wallet", ParamVal.str w)]
      | Option.none => [])
  ++ (match market_maker with
      | some m => [("marketMaker", ParamVal.str m)]
      | Option.none => [])

/-- The GET request issued by `get_market_makers`. -/
def marketMakersRequest (st : ApiState) (chain_id : PyVal)
    (wallet market_maker : Option String) : HttpRequest :=
  { method := "GET", url := st.host ++ "/taker/v3/market-makers",
    headers := st.headers,
    params := expandParams (marketMakersParams st.source chain_id wallet market_maker),
    jsonBody := Option.none }

/-- `HashflowApi.get_market_makers(chain_id, wallet, market_maker)`:
validates the chain id, builds the query parameters, issues one GET to
`/taker/v3/market-makers` through `self.session` and returns the
`marketMakers` field of the response. -/
def HashflowApi.get_market_makers (st : ApiState) (chain_id : PyVal)
    (wallet market_maker : Option String) (net : HttpRequest → Response) :
    OpResult :=
  match validate_chain_id chain_id with
  | .error e => ⟨st, [], .error e⟩
  | .ok _ =>
    doRequest st (marketMakersRequest st chain_id wallet market_maker) net
      (fun b => jsonIndex b "marketMakers")

/-- The `params` dict built by `get_price_levels`: the three fixed
entries, the maker list under the repeated `marketMakers[]` key, plus
`wallet` exactly when the client has a configured default wallet. -/
def priceLevelsParams (source : String) (chain_id : PyVal)
    (market_makers : List String) (cfgWallet : Option String) :
    List (String × ParamVal) :=
  [("source", .str source),
   ("baseChainId", .str chain_id.pyStr),
   ("baseChainType", .str "evm"),
   ("marketMakers[]", .list market_makers)]
  ++ (match cfgWallet with
      | some w => [("wallet", ParamVal.str w)]
      | Option.none => [])

/-- The GET request issued by `get_price_levels`. -/
def priceLevelsRequest (st : ApiState) (chain_id : PyVal)
    (market_makers : List String) : HttpRequest :=
  { method := "GET", url := st.host ++ "/taker/v3/price-levels",
    headers := st.headers,
    params := expandParams (priceLevelsParams st.source chain_id market_makers st.wallet),
    jsonBody := Option.none }

/-- `HashflowApi.get_price_levels(chain_id, market_makers)`: validates the
chain id, builds the query parameters (adding `wallet` exactly when the
client has a configured default wallet), issues one GET to
`/taker/v3/price-levels` and returns the `levels` field. -/
def HashflowApi.get_price_levels (st : ApiState) (chain_id : PyVal)
    (market_makers : List String) (net : HttpRequest → Response) :
    OpResult :=
  match validate_chain_id chain_id with
  | .error e => ⟨st, [], .error e⟩
  | .ok _ =>
    doRequest st (priceLevelsRequest st chain_id market_makers) net
      (fun b => jsonIndex b "levels")

/-- Python `x or y` on an optional string: `None` and `""` are falsy. -/
def pyOrStr (a : Option String) (b : String) : String :=
  match a with
  | some s => if s = "" then b else s
  | Option.none => b

/-- Python `x or y` on an optional integer: `None` and `0` are falsy. -/
def pyOrInt (a : Option Int) (b : Int) : Int :=
  match a with
  | some n => if n = 0 then b else n
  | Option.none => b

/-- JSON encoding of an optional string (`None` becomes `null`). -/
def optStr : Option String → Json
  | some s => .str s
  | Option.none => .null

/-- JSON encoding of an optional string list (`None` becomes `null`). -/
def optStrList : Option (List String) → Json
  | some xs => .arr (xs.map .str)
  | Option.none => .null

/-- JSON encoding of an optional integer (`None` becomes `null`). -/
def optInt : Option Int → Json
  | some n => .int n
  | Option.none => .null

/-- The single rfq entry built by `request_quote`: a dict literal that
always contains all eight keys, with `None` (JSON `null`) standing for
omitted optional arguments. -/
def buildRfq (base_token quote_token : String)
    (base_token_amount quote_token_amount : Option String)
    (trader : String) (effective_trader : Option String)
    (market_makers : Option (List String)) (feeBps : Option Int) : Json :=
  .obj
    [("baseToken", .str base_token),
     ("quoteToken", .str quote_token),
     ("baseTokenAmount", optStr base_token_amount),
     ("quoteTokenAmount", optStr quote_token_amount),
     ("trader", .str trader),
     ("effectiveTrader", .str (pyOrStr effective_trader trader)),
     ("marketMakers", optStrList market_makers),
     ("feesBps", optInt feeBps)]

/-- The top-level JSON body built by `request_quote`. -/
def buildQuoteBody (source : String) (chain_id : Int)
    (dst_chain_id : Option Int) (rfq : Json) (debug : Bool) : Json :=
  .obj
    [("source", .str source),
     ("baseChain", .obj [("chainType", .str "evm"), ("chainId", .int chain_id)]),
     ("quoteChain", .obj [("chainType", .str "evm"),
                          ("chainId", .int (pyOrInt dst_chain_id chain_id))]),
     ("rfqs", .arr [rfq]),
     ("calldata", .bool debug)]

/-- The trader resolution of `request_quote`:
`wallet if wallet is not None else self.wallet`. -/
def resolveTrader (wallet cfgWallet : Option String) : Option String :=
  match wallet with
  | some w => some w
  | Option.none => cfgWallet

/-- The POST request issued by `request_quote` once the trader is
resolved. -/
def rfqRequest (st : ApiState) (chain_id : Int) (base_token quote_token : String)
    (dst_chain_id : Option Int) (base_token_amount quote_token_amount : Option String)
    (trader : String) (effective_trader : Option String)
    (market_makers : Option (List String)) (feeBps : Option Int)
    (debug : Bool) : HttpRequest :=
  { method := "POST", url := st.host ++ "/taker/v3/rfq",
    headers := st.headers, params := [],
    jsonBody := some (buildQuoteBody st.source chain_id dst_chain_id
      (buildRfq base_token quote_token base_token_amount quote_token_amount
        trader effective_trader market_makers feeBps) debug) }

/-- `HashflowApi.request_quote(...)`: resolves the trader from the
per-call `wallet` argument or the configured default (raising
`InvalidUsage` when neither is present, before anything else), builds the
JSON body and issues one POST to `/taker/v3/rfq`, returning the decoded
response body. -/
def HashflowApi.request_quote (st : ApiState) (chain_id : Int)
    (base_token quote_token : String) (dst_chain_id : Option Int)
    (base_token_amount quote_token_amount : Option String)
    (wallet effective_trader : Option String)
    (market_makers : Option (List String)) (feeBps : Option Int)
    (debug : Bool) (net : HttpRequest → Response) : OpResult :=
  match resolveTrader wallet st.wallet with
  | Option.none => ⟨st, [], .error (.invalidUsage "Must specify wallet for trader.")⟩
  | some trader =>
    doRequest st
      (rfqRequest st chain_id base_token quote_token dst_chain_id
        base_token_amount quote_token_amount trader effective_trader
        market_makers feeBps debug) net
      (fun b => pure b)

/-! ## Projections of the outgoing wire data

Spec-side accessors reading back fields of the single request an
operation issued, used to state the wire-format claims. -/

/-- The JSON body of the single request issued by an operation, when
exactly one request with a body was issued. -/
def sentBody (r : OpResult) : Option Json :=
  match r.requests with
  | [req] => req.jsonBody
  | _ => Option.none

/-- A top-level field of the issued JSON body. -/
def sentField (r : OpResult) (key : String) : Option Json :=
  (sentBody r).bind (fun b => b.lookup key)

/-- The `quoteChain.chainId` field of the issued JSON body. -/
def sentQuoteChainId (r : OpResult) : Option Json :=
  (sentField r "quoteChain").bind (fun q => q.lookup "chainId")

/-- The first entry of the `rfqs` array of the issued JSON body. -/
def sentRfq0 (r : OpResult) : Option Json :=
  match sentField r "rfqs" with
  | some (.arr (rfq :: _)) => some rfq
  | _ => Option.none

/-- A field of the first rfq entry of the issued JSON body. -/
def rfq0Field (r : OpResult) (key : String) : Option Json :=
  (sentRfq0 r).bind (fun j => j.lookup key)

/-- Whether an outcome is a raised `ValidationError`. -/
def isValidationFailure : Except ApiError Json → Bool
  | .error (.validationError _) => true
  | _ => false

/-! ## Concrete fixtures for counterexamples and witnesses -/

/-- A taker-mode client (`mode="taker"`, `name="qa"`) on production with
an open session, as in the repository's example usage. -/
def stTaker : ApiState :=
  { headers := [("Authorization", "KEY")], host := "https://api.hashflow.com",
    source := "qa", wallet := Option.none, session := some () }

/-- A wallet-mode client on production with an open session. -/
def stWallet : ApiState :=
  { headers := [("Authorization", "KEY")], host := "https://api.hashflow.com",
    source := "api", wallet := some "0xCFG", session := some () }

/-- A taker-mode client whose session was never opened. -/
def stClosed : ApiState :=
  { headers := [("Authorization", "KEY")], host := "https://api.hashflow.com",
    source := "qa", wallet := Option.none, session := Option.none }

/-- A network oracle answering every request with status 200 and a body
holding both response fields the client reads. -/
def net200 : HttpRequest → Response := fun _ =>
  { status := 200,
    body := .obj [("marketMakers", .arr [.str "mm1"]), ("levels", .arr [.int 7])] }

/-- A network oracle answering with status 500 and one error body. -/
def net500A : HttpRequest → Response := fun _ =>
  { status := 500, body := .str "internal error A" }

/-- A network oracle answering with status 500 and a different body. -/
def net500B : HttpRequest → Response := fun _ =>
  { status := 500, body := .str "internal error B" }

/-- A network oracle answering with status 304 (not 2xx, below 400). -/
def net304 : HttpRequest → Response := fun _ =>
  { status := 304,
    body := .obj [("marketMakers", .arr [.str "mm1"]), ("levels", .arr [.int 7])] }

/-- The client state produced by constructing in wallet mode with name
`"0xW"` on staging. -/
def stStagingWallet : ApiState :=
  { headers := [("Authorization", "KEY")], host := "https://api-staging.hashflow.com",
    source := "api", wallet := some "0xW", session := Option.none }

/-- The response used to witness the remote-error behaviour. -/
def resp500 : Response := { status := 500, body := .str "oops" }


/-! ## Helper lemmas -/

theorem doRequest_state (st : ApiState) (req : HttpRequest)
    (net : HttpRequest → Response) (ex : Json → Except ApiError Json) :
    (doRequest st req net ex).state = st := by
  unfold doRequest
  cases st.session with
  | none => rfl
  | some u =>
    cases raise_for_status (net req) with
    | error e => rfl
    | ok u2 => rfl

theorem doRequest_closed (st : ApiState) (req : HttpRequest)
    (net : HttpRequest → Response) (ex : Json → Except ApiError Json)
    (h : st.session = Option.none) :
    doRequest st req net ex = ⟨st, [], .error (.attributeError "session")⟩ := by
  unfold doRequest
  rw [h]

theorem doRequest_open_requests (st : ApiState) (req : HttpRequest)
    (net : HttpRequest → Response) (ex : Json → Except ApiError Json)
    (h : st.session = some ()) :
    (doRequest st req net ex).requests = [req] := by
  unfold doRequest
  rw [h]
  cases raise_for_status (net req) with
  | error e => rfl
  | ok u => rfl

theorem doRequest_open_outcome_bad (st : ApiState) (req : HttpRequest)
    (net : HttpRequest → Response) (ex : Json → Except ApiError Json)
    (h : st.session = some ()) (hst : 400 ≤ (net req).status) :
    (doRequest st req net ex).outcome =
      .error (.clientResponseError (net req).status) := by
  unfold doRequest
  rw [h]
  have hr : raise_for_status (net req) =
      Except.error (.clientResponseError (net req).status) := by
    unfold raise_for_status
    rw [if_pos hst]
    rfl
  rw [hr]

theorem doRequest_open_outcome_good (st : ApiState) (req : HttpRequest)
    (net : HttpRequest → Response) (ex : Json → Except ApiError Json)
    (h : st.session = some ()) (hst : (net req).status < 400) :
    (doRequest st req net ex).outcome = ex (net req).body := by
  unfold doRequest
  rw [h]
  have hr : raise_for_status (net req) = Except.ok () := by
    unfold raise_for_status
    rw [if_neg (by omega)]
    rfl
  rw [hr]

theorem validate_chain_id_pos (n : Int) (h : 0 < n) :
    validate_chain_id (.int n) = Except.ok () := by
  simp only [validate_chain_id]
  rw [if_pos h]
  rfl

theorem validate_chain_id_bad (v : PyVal)
    (h : ∀ n : Int, v = PyVal.int n → n ≤ 0) :
    ∃ msg, validate_chain_id v = Except.error (.validationError msg) := by
  cases v with
  | int n =>
    have hn : n ≤ 0 := h n rfl
    exact ⟨"Invalid chain id " ++ toString n, by
      simp only [validate_chain_id]
      rw [if_neg (by omega)]
      rfl⟩
  | none => exact ⟨"Chain id must be an integer", rfl⟩
  | bool b => exact ⟨"Chain id must be an integer", rfl⟩
  | str s => exact ⟨"Chain id must be an integer", rfl⟩

theorem expandParams_append (a b : List (String × ParamVal)) :
    expandParams (a ++ b) = expandParams a ++ expandParams b := by
  induction a with
  | nil => rfl
  | cons p rest ih =>
    obtain ⟨k, v⟩ := p
    cases v with
    | str s => simp [expandParams, ih]
    | list xs => simp [expandParams, ih]

/-! ## Claims -/

/-- C9: every operation (`get_market_makers`, `get_price_levels`,
`request_quote`) leaves the client's state — and in particular its
configuration (auth headers, host, source, default wallet) — unchanged:
the embedded methods perform no assignment to `self`. -/
theorem claim_C9_no_state_mutation (st : ApiState) (chain_id : PyVal)
    (w mm : Option String) (mms : List String) (cid : Int) (bt qt : String)
    (dst : Option Int) (bta qta wq eff : Option String)
    (mmq : Option (List String)) (fees : Option Int) (dbg : Bool)
    (net : HttpRequest → Response) :
    (HashflowApi.get_market_makers st chain_id w mm net).state = st
    ∧ (HashflowApi.get_price_levels st chain_id mms net).state = st
    ∧ (HashflowApi.request_quote st cid bt qt dst bta qta wq eff mmq fees dbg
        net).state = st := by
  refine ⟨?_, ?_, ?_⟩
  · unfold HashflowApi.get_market_makers
    cases validate_chain_id chain_id with
    | error e => rfl
    | ok u => exact doRequest_state ..
  · unfold HashflowApi.get_price_levels
    cases validate_chain_id chain_id with
    | error e => rfl
    | ok u => exact doRequest_state ..
  · unfold HashflowApi.request_quote
    cases resolveTrader wq st.wallet with
    | none => rfl
    | some trader => exact doRequest_state ..

/-- C7: construction fails exactly when the environment is not one of
{production, staging} or the mode is not one of {wallet, taker} (the
raised error always being the construction-time `InvalidUsage`, the
spec's `ConfigurationError`); on success, wallet mode sets `source` to
the fixed constant "api" and records the name as the default wallet,
while taker mode sets `source` to the name and leaves the wallet unset. -/
theorem claim_C7_init_contract (mode name key env : String) :
    (∀ e, HashflowApi.init mode name key env = Except.error e →
        ∃ msg, e = ApiError.invalidUsage msg)
    ∧ (((env = "production" ∨ env = "staging") ∧ (mode = "wallet" ∨ mode = "taker")) ↔
        ∃ st, HashflowApi.init mode name key env = Except.ok st)
    ∧ (∀ st, HashflowApi.init mode name key env = Except.ok st →
        ((mode = "wallet" → st.source = "api" ∧ st.wallet = some name)
         ∧ (mode = "taker" → st.source = name ∧ st.wallet = Option.none))) := by
  unfold HashflowApi.init HashflowApi.initMode
  by_cases hp : env = "production" <;> by_cases hsg : env = "staging" <;>
    by_cases hw : mode = "wallet" <;> by_cases ht : mode = "taker" <;>
      simp_all

theorem raise_for_status_error_shape (r : Response) (e : ApiError)
    (h : raise_for_status r = Except.error e) :
    e = .clientResponseError r.status := by
  unfold raise_for_status at h
  by_cases hst : 400 ≤ r.status
  · rw [if_pos hst] at h
    exact (Except.error.injEq .. ▸ h).symm ▸ rfl
  · rw [if_neg hst] at h
    exact absurd h (by simp [pure, Except.pure])

theorem jsonIndex_not_usage (j : Json) (k : String) :
    isUsageFailure (jsonIndex j k) = false := by
  unfold jsonIndex
  cases j.lookup k with
  | none => rfl
  | some v => rfl

theorem doRequest_not_usage (st : ApiState) (req : HttpRequest)
    (net : HttpRequest → Response) (ex : Json → Except ApiError Json)
    (hex : ∀ b, isUsageFailure (ex b) = false) :
    isUsageFailure (doRequest st req net ex).outcome = false := by
  unfold doRequest
  cases st.session with
  | none => rfl
  | some u =>
    cases hrs : raise_for_status (net req) with
    | error e => rw [raise_for_status_error_shape _ _ hrs]; rfl
    | ok u2 => exact hex (net req).body

theorem resolveTrader_some_left (w : String) (cfg : Option String) :
    resolveTrader (some w) cfg = some w := rfl

theorem resolveTrader_none_left (cfg : Option String) :
    resolveTrader Option.none cfg = cfg := rfl

theorem request_quote_requests (st : ApiState) (cid : Int) (bt qt : String)
    (dst : Option Int) (bta qta wq eff : Option String)
    (mmq : Option (List String)) (fees : Option Int) (dbg : Bool)
    (net : HttpRequest → Response) (t : String)
    (ht : resolveTrader wq st.wallet = some t) (hs : st.session = some ()) :
    (HashflowApi.request_quote st cid bt qt dst bta qta wq eff mmq fees dbg net).requests
      = [rfqRequest st cid bt qt dst bta qta t eff mmq fees dbg] := by
  unfold HashflowApi.request_quote
  rw [ht]
  exact doRequest_open_requests _ _ _ _ hs

theorem request_quote_sentBody (st : ApiState) (cid : Int) (bt qt : String)
    (dst : Option Int) (bta qta wq eff : Option String)
    (mmq : Option (List String)) (fees : Option Int) (dbg : Bool)
    (net : HttpRequest → Response) (t : String)
    (ht : resolveTrader wq st.wallet = some t) (hs : st.session = some ()) :
    sentBody (HashflowApi.request_quote st cid bt qt dst bta qta wq eff mmq fees dbg net)
      = some (buildQuoteBody st.source cid dst
          (buildRfq bt qt bta qta t eff mmq fees) dbg) := by
  unfold sentBody
  rw [request_quote_requests st cid bt qt dst bta qta wq eff mmq fees dbg net t ht hs]
  rfl

theorem buildQuoteBody_quoteChainId (source : String) (cid : Int)
    (dst : Option Int) (rfq : Json) (dbg : Bool) :
    ((buildQuoteBody source cid dst rfq dbg).lookup "quoteChain").bind
        (fun q => q.lookup "chainId") = some (.int (pyOrInt dst cid)) := rfl

theorem request_quote_quoteChainId (st : ApiState) (cid : Int) (bt qt : String)
    (dst : Option Int) (bta qta wq eff : Option String)
    (mmq : Option (List String)) (fees : Option Int) (dbg : Bool)
    (net : HttpRequest → Response) (t : String)
    (ht : resolveTrader wq st.wallet = some t) (hs : st.session = some ()) :
    sentQuoteChainId (HashflowApi.request_quote st cid bt qt dst bta qta wq eff mmq fees dbg net)
      = some (.int (pyOrInt dst cid)) := by
  unfold sentQuoteChainId sentField
  rw [request_quote_sentBody st cid bt qt dst bta qta wq eff mmq fees dbg net t ht hs]
  rfl

theorem request_quote_rfq0Field (st : ApiState) (cid : Int) (bt qt : String)
    (dst : Option Int) (bta qta wq eff : Option String)
    (mmq : Option (List String)) (fees : Option Int) (dbg : Bool)
    (net : HttpRequest → Response) (t : String) (k : String)
    (ht : resolveTrader wq st.wallet = some t) (hs : st.session = some ()) :
    rfq0Field (HashflowApi.request_quote st cid bt qt dst bta qta wq eff mmq fees dbg net) k
      = (buildRfq bt qt bta qta t eff mmq fees).lookup k := by
  unfold rfq0Field sentRfq0 sentField
  rw [request_quote_sentBody st cid bt qt dst bta qta wq eff mmq fees dbg net t ht hs]
  rfl

theorem resolveTrader_eq_none_iff (w cfg : Option String) :
    resolveTrader w cfg = Option.none ↔ (w = Option.none ∧ cfg = Option.none) := by
  cases w <;> simp [resolveTrader]

theorem get_market_makers_requests (st : ApiState) (chain_id : PyVal)
    (w mm : Option String) (net : HttpRequest → Response)
    (hv : validate_chain_id chain_id = Except.ok ()) (hs : st.session = some ()) :
    (HashflowApi.get_market_makers st chain_id w mm net).requests
      = [marketMakersRequest st chain_id w mm] := by
  unfold HashflowApi.get_market_makers
  rw [hv]
  exact doRequest_open_requests _ _ _ _ hs

theorem get_price_levels_requests (st : ApiState) (chain_id : PyVal)
    (mms : List String) (net : HttpRequest → Response)
    (hv : validate_chain_id chain_id = Except.ok ()) (hs : st.session = some ()) :
    (HashflowApi.get_price_levels st chain_id mms net).requests
      = [priceLevelsRequest st chain_id mms] := by
  unfold HashflowApi.get_price_levels
  rw [hv]
  exact doRequest_open_requests _ _ _ _ hs

theorem priceLevelsParams_expand_none (source : String) (chain_id : PyVal)
    (mms : List String) :
    expandParams (priceLevelsParams source chain_id mms Option.none)
      = [("source", source), ("baseChainId", chain_id.pyStr), ("baseChainType", "evm")]
        ++ mms.map (fun m => ("marketMakers[]", m)) := by
  simp [priceLevelsParams, expandParams]

theorem priceLevelsParams_expand_some (source : String) (chain_id : PyVal)
    (mms : List String) (cw : String) :
    expandParams (priceLevelsParams source chain_id mms (some cw))
      = [("source", source), ("baseChainId", chain_id.pyStr), ("baseChainType", "evm")]
        ++ mms.map (fun m => ("marketMakers[]", m)) ++ [("wallet", cw)] := by
  simp [priceLevelsParams, expandParams]

/-- C1 counterexample: with `dst_chain_id = 0` supplied, the outgoing
`quoteChain.chainId` is the base `chain_id` (1), not 0 — Python's
`dst_chain_id or chain_id` treats 0 as falsy. -/
theorem claim_C1_counterexample :
    sentQuoteChainId (HashflowApi.request_quote stTaker 1 "0xB" "0xQ" (some 0)
        Option.none Option.none (some "0xW") Option.none Option.none Option.none false net200)
      = some (Json.int 1)
    ∧ Json.int 1 ≠ Json.int 0 :=
  ⟨rfl, by simp⟩

/-- C1 (amended): the outgoing `quoteChain.chainId` equals `dst_chain_id`
when that argument is supplied and nonzero, and equals `chain_id` when
`dst_chain_id` is omitted or equal to 0. -/
theorem claim_C1_amended_quote_chain_id (st : ApiState) (cid : Int) (bt qt : String)
    (dst : Option Int) (bta qta wq eff : Option String) (mmq : Option (List String))
    (fees : Option Int) (dbg : Bool) (net : HttpRequest → Response) (t : String)
    (ht : resolveTrader wq st.wallet = some t) (hs : st.session = some ()) :
    ((dst = Option.none ∨ dst = some 0) →
      sentQuoteChainId (HashflowApi.request_quote st cid bt qt dst bta qta wq eff mmq fees dbg net)
        = some (.int cid))
    ∧ (∀ d : Int, d ≠ 0 → dst = some d →
      sentQuoteChainId (HashflowApi.request_quote st cid bt qt dst bta qta wq eff mmq fees dbg net)
        = some (.int d)) := by
  have h := request_quote_quoteChainId st cid bt qt dst bta qta wq eff mmq fees dbg net t ht hs
  constructor
  · intro hd
    rw [h]
    rcases hd with hd | hd <;> rw [hd] <;> simp [pyOrInt]
  · intro d hd0 hdd
    rw [h, hdd]
    simp [pyOrInt, hd0]

/-- C1 witness: a nonzero supplied `dst_chain_id` (5) is used verbatim. -/
theorem claim_C1_witness :
    sentQuoteChainId (HashflowApi.request_quote stTaker 1 "0xB" "0xQ" (some 5)
        Option.none Option.none (some "0xW") Option.none Option.none Option.none false net200)
      = some (Json.int 5) :=
  (claim_C1_amended_quote_chain_id stTaker 1 "0xB" "0xQ" (some 5) Option.none Option.none
      (some "0xW") Option.none Option.none Option.none false net200 "0xW" rfl rfl).2
    5 (by decide) rfl

/-- C2 counterexample: an explicit empty-string `effective_trader` is not
preserved — Python's `effective_trader or trader` treats `""` as falsy,
so the body carries the trader instead. -/
theorem claim_C2_counterexample :
    rfq0Field (HashflowApi.request_quote stTaker 1 "0xB" "0xQ" Option.none
        Option.none Option.none (some "0xW") (some "") Option.none Option.none false net200)
      "effectiveTrader" = some (Json.str "0xW")
    ∧ Json.str "0xW" ≠ Json.str "" :=
  ⟨rfl, by simp⟩

/-- C2 (amended): a non-empty explicit `effective_trader` is preserved
verbatim in `rfqs[0].effectiveTrader`; when it is omitted or the empty
string, the field equals the body's own `trader` field. -/
theorem claim_C2_amended_effective_trader (st : ApiState) (cid : Int) (bt qt : String)
    (dst : Option Int) (bta qta wq eff : Option String) (mmq : Option (List String))
    (fees : Option Int) (dbg : Bool) (net : HttpRequest → Response) (t : String)
    (ht : resolveTrader wq st.wallet = some t) (hs : st.session = some ()) :
    ((eff = Option.none ∨ eff = some "") →
      rfq0Field (HashflowApi.request_quote st cid bt qt dst bta qta wq eff mmq fees dbg net)
          "effectiveTrader"
        = rfq0Field (HashflowApi.request_quote st cid bt qt dst bta qta wq eff mmq fees dbg net)
          "trader")
    ∧ (∀ s : String, s ≠ "" → eff = some s →
      rfq0Field (HashflowApi.request_quote st cid bt qt dst bta qta wq eff mmq fees dbg net)
          "effectiveTrader" = some (.str s)) := by
  have hE := request_quote_rfq0Field st cid bt qt dst bta qta wq eff mmq fees dbg net t
    "effectiveTrader" ht hs
  have hT := request_quote_rfq0Field st cid bt qt dst bta qta wq eff mmq fees dbg net t
    "trader" ht hs
  have h1 : (buildRfq bt qt bta qta t eff mmq fees).lookup "effectiveTrader"
      = some (.str (pyOrStr eff t)) := rfl
  have h2 : (buildRfq bt qt bta qta t eff mmq fees).lookup "trader"
      = some (.str t) := rfl
  constructor
  · intro hd
    rw [hE, hT, h1, h2]
    rcases hd with hd | hd <;> rw [hd] <;> simp [pyOrStr]
  · intro s hs0 hdd
    rw [hE, h1, hdd]
    simp [pyOrStr, hs0]

/-- C2 witness: a non-empty explicit `effective_trader` is preserved. -/
theorem claim_C2_witness :
    rfq0Field (HashflowApi.request_quote stTaker 1 "0xB" "0xQ" Option.none
        Option.none Option.none (some "0xW") (some "0xE") Option.none Option.none false net200)
      "effectiveTrader" = some (Json.str "0xE") :=
  (claim_C2_amended_effective_trader stTaker 1 "0xB" "0xQ" Option.none Option.none Option.none
      (some "0xW") (some "0xE") Option.none Option.none false net200 "0xW" rfl rfl).2
    "0xE" (by decide) rfl

/-- C3: with an open session, `request_quote` raises the trader
`InvalidUsage` (the spec's `UsageError`) exactly when both the per-call
wallet and the configured default wallet are absent, having issued no
request; in every other combination it issues exactly one POST to the
rfq endpoint. -/
theorem claim_C3_usage_error_iff (st : ApiState) (cid : Int) (bt qt : String)
    (dst : Option Int) (bta qta wq eff : Option String) (mmq : Option (List String))
    (fees : Option Int) (dbg : Bool) (net : HttpRequest → Response)
    (hs : st.session = some ()) :
    (isUsageFailure (HashflowApi.request_quote st cid bt qt dst bta qta wq eff mmq fees dbg
        net).outcome = true ↔ (wq = Option.none ∧ st.wallet = Option.none))
    ∧ ((wq = Option.none ∧ st.wallet = Option.none) →
      (HashflowApi.request_quote st cid bt qt dst bta qta wq eff mmq fees dbg net).requests = [])
    ∧ (¬(wq = Option.none ∧ st.wallet = Option.none) →
      (HashflowApi.request_quote st cid bt qt dst bta qta wq eff mmq fees dbg net).requests.map
        (fun r => (r.method, r.url)) = [("POST", st.host ++ "/taker/v3/rfq")]) := by
  cases hrt : resolveTrader wq st.wallet with
  | none =>
    have hboth : wq = Option.none ∧ st.wallet = Option.none :=
      (resolveTrader_eq_none_iff wq st.wallet).mp hrt
    refine ⟨?_, ?_, ?_⟩
    · unfold HashflowApi.request_quote
      rw [hrt]
      simp [isUsageFailure, hboth]
    · intro _
      unfold HashflowApi.request_quote
      rw [hrt]
    · intro hcontra
      exact absurd hboth hcontra
  | some t =>
    have hnot : ¬(wq = Option.none ∧ st.wallet = Option.none) := by
      intro hb
      rw [(resolveTrader_eq_none_iff wq st.wallet).mpr hb] at hrt
      exact Option.noConfusion hrt
    refine ⟨?_, fun hb => absurd hb hnot, ?_⟩
    · constructor
      · intro habs
        have hfalse : isUsageFailure (HashflowApi.request_quote st cid bt qt dst bta qta wq eff
            mmq fees dbg net).outcome = false := by
          unfold HashflowApi.request_quote
          rw [hrt]
          exact doRequest_not_usage _ _ _ _ (fun b => rfl)
        rw [hfalse] at habs
        exact Bool.noConfusion habs
      · intro hb
        exact absurd hb hnot
    · intro _
      rw [request_quote_requests st cid bt qt dst bta qta wq eff mmq fees dbg net t hrt hs]
      rfl

/-- C3 witness: with only the configured default wallet present, exactly
one POST to the rfq endpoint is issued. -/
theorem claim_C3_witness :
    (HashflowApi.request_quote stWallet 1 "0xB" "0xQ" Option.none Option.none Option.none
        Option.none Option.none Option.none Option.none false net200).requests.map
      (fun r => (r.method, r.url)) = [("POST", stWallet.host ++ "/taker/v3/rfq")] :=
  (claim_C3_usage_error_iff stWallet 1 "0xB" "0xQ" Option.none Option.none Option.none
      Option.none Option.none Option.none Option.none false net200 rfl).2.2
    (by simp [stWallet])

/-- C4 counterexample: calling `get_market_makers` on a client whose
session was never opened fails with Python's `AttributeError` for the
missing `session` attribute, not with `InvalidUsage` (the spec's
`UsageError`) — the code performs no session check. -/
theorem claim_C4_counterexample :
    (HashflowApi.get_market_makers stClosed (.int 1) Option.none Option.none net200).outcome
      = Except.error (ApiError.attributeError "session")
    ∧ isUsageFailure (HashflowApi.get_market_makers stClosed (.int 1) Option.none Option.none
        net200).outcome = false :=
  ⟨rfl, rfl⟩

/-- C4 (amended): every operation invoked on a client whose session has
not been opened fails before issuing any request — but with Python's
`AttributeError` for the unset `session` attribute, not `UsageError`
(for the GET operations this is reached only once chain-id validation
passed, and for `request_quote` only once the trader resolved). -/
theorem claim_C4_amended_closed_session (st : ApiState) (chain_id : PyVal)
    (w mm : Option String) (mms : List String) (cid : Int) (bt qt : String)
    (dst : Option Int) (bta qta wq eff : Option String) (mmq : Option (List String))
    (fees : Option Int) (dbg : Bool) (net : HttpRequest → Response)
    (hs : st.session = Option.none) :
    (validate_chain_id chain_id = Except.ok () →
      ((HashflowApi.get_market_makers st chain_id w mm net).requests = []
       ∧ (HashflowApi.get_market_makers st chain_id w mm net).outcome
          = Except.error (ApiError.attributeError "session")
       ∧ (HashflowApi.get_price_levels st chain_id mms net).requests = []
       ∧ (HashflowApi.get_price_levels st chain_id mms net).outcome
          = Except.error (ApiError.attributeError "session")))
    ∧ (∀ t, resolveTrader wq st.wallet = some t →
      ((HashflowApi.request_quote st cid bt qt dst bta qta wq eff mmq fees dbg net).requests = []
       ∧ (HashflowApi.request_quote st cid bt qt dst bta qta wq eff mmq fees dbg net).outcome
          = Except.error (ApiError.attributeError "session"))) := by
  constructor
  · intro hv
    unfold HashflowApi.get_market_makers HashflowApi.get_price_levels
    rw [hv, doRequest_closed _ _ _ _ hs, doRequest_closed _ _ _ _ hs]
    exact ⟨rfl, rfl, rfl, rfl⟩
  · intro t ht
    unfold HashflowApi.request_quote
    rw [ht]
    dsimp only
    rw [doRequest_closed _ _ _ _ hs]
    exact ⟨rfl, rfl⟩

/-- C4 witness: the amended behaviour at a concrete closed-session
client. -/
theorem claim_C4_witness :
    (HashflowApi.get_market_makers stClosed (.int 1) Option.none Option.none net200).requests = []
    ∧ (HashflowApi.get_market_makers stClosed (.int 1) Option.none Option.none net200).outcome
        = Except.error (ApiError.attributeError "session") :=
  let h := (claim_C4_amended_closed_session stClosed (.int 1) Option.none Option.none []
    1 "0xB" "0xQ" Option.none Option.none Option.none (some "0xW") Option.none Option.none
    Option.none false net200 rfl).1 rfl
  ⟨h.1, h.2.1⟩

/-- C5 counterexample: a non-2xx response surfaces as
`ClientResponseError` carrying only the status — two 500 responses with
different bodies raise the identical error (the body is lost), and a 304
response (non-2xx but below 400) raises nothing at all. -/
theorem claim_C5_counterexample :
    (HashflowApi.get_market_makers stTaker (.int 1) Option.none Option.none net500A).outcome
      = Except.error (ApiError.clientResponseError 500)
    ∧ (HashflowApi.get_market_makers stTaker (.int 1) Option.none Option.none net500A).outcome
      = (HashflowApi.get_market_makers stTaker (.int 1) Option.none Option.none net500B).outcome
    ∧ (net500A (marketMakersRequest stTaker (.int 1) Option.none Option.none)).body
      ≠ (net500B (marketMakersRequest stTaker (.int 1) Option.none Option.none)).body
    ∧ (HashflowApi.get_market_makers stTaker (.int 1) Option.none Option.none net304).outcome
      = Except.ok (Json.arr [Json.str "mm1"]) :=
  ⟨rfl, rfl, by simp [net500A, net500B], rfl⟩

/-- C5 (amended): when the response status is 400 or higher, every
operation raises `ClientResponseError` carrying the original status
code; the response body is not read and is not part of the error, and
statuses below 400 (including 3xx) raise nothing. -/
theorem claim_C5_amended_remote_error (st : ApiState) (chain_id : PyVal)
    (w mm : Option String) (mms : List String) (cid : Int) (bt qt : String)
    (dst : Option Int) (bta qta wq eff : Option String) (mmq : Option (List String))
    (fees : Option Int) (dbg : Bool) (r : Response)
    (hs : st.session = some ()) (hst : 400 ≤ r.status) :
    (validate_chain_id chain_id = Except.ok () →
      ((HashflowApi.get_market_makers st chain_id w mm (fun _ => r)).outcome
          = Except.error (ApiError.clientResponseError r.status)
       ∧ (HashflowApi.get_price_levels st chain_id mms (fun _ => r)).outcome
          = Except.error (ApiError.clientResponseError r.status)))
    ∧ (∀ t, resolveTrader wq st.wallet = some t →
      (HashflowApi.request_quote st cid bt qt dst bta qta wq eff mmq fees dbg
          (fun _ => r)).outcome
        = Except.error (ApiError.clientResponseError r.status)) := by
  constructor
  · intro hv
    unfold HashflowApi.get_market_makers HashflowApi.get_price_levels
    rw [hv]
    exact ⟨doRequest_open_outcome_bad _ _ _ _ hs hst,
           doRequest_open_outcome_bad _ _ _ _ hs hst⟩
  · intro t ht
    unfold HashflowApi.request_quote
    rw [ht]
    exact doRequest_open_outcome_bad _ _ _ _ hs hst

/-- C5 witness: a concrete 500 response surfaces with its status. -/
theorem claim_C5_witness :
    (HashflowApi.get_market_makers stTaker (.int 1) Option.none Option.none
        (fun _ => resp500)).outcome
      = Except.error (ApiError.clientResponseError resp500.status) :=
  ((claim_C5_amended_remote_error stTaker (.int 1) Option.none Option.none []
      1 "0xB" "0xQ" Option.none Option.none Option.none (some "0xW") Option.none
      Option.none Option.none false resp500 rfl (by decide)).1 rfl).1

/-- C6: for every `chain_id` that is not a positive integer (non-positive
or of the wrong type), both GET operations fail with `ValidationError`
and issue zero requests. -/
theorem claim_C6_chain_id_validation (st : ApiState) (chain_id : PyVal)
    (w mm : Option String) (mms : List String) (net : HttpRequest → Response)
    (h : ∀ n : Int, chain_id = PyVal.int n → n ≤ 0) :
    (HashflowApi.get_market_makers st chain_id w mm net).requests = []
    ∧ isValidationFailure (HashflowApi.get_market_makers st chain_id w mm net).outcome = true
    ∧ (HashflowApi.get_price_levels st chain_id mms net).requests = []
    ∧ isValidationFailure (HashflowApi.get_price_levels st chain_id mms net).outcome = true := by
  obtain ⟨msg, hv⟩ := validate_chain_id_bad chain_id h
  unfold HashflowApi.get_market_makers HashflowApi.get_price_levels
  rw [hv]
  exact ⟨rfl, rfl, rfl, rfl⟩

/-- C6 witness: `chain_id = 0` is rejected with zero requests issued. -/
theorem claim_C6_witness :
    (HashflowApi.get_market_makers stTaker (.int 0) Option.none Option.none net200).requests = []
    ∧ isValidationFailure (HashflowApi.get_market_makers stTaker (.int 0) Option.none Option.none
        net200).outcome = true :=
  let h := claim_C6_chain_id_validation stTaker (.int 0) Option.none Option.none [] net200
    (by intro n hn; injection hn with h2; omega)
  ⟨h.1, h.2.1⟩

/-- C8: for a valid call (open session, positive integer chain id),
`get_price_levels` issues exactly one GET to the price-levels endpoint
whose query parameters are exactly `source`, `baseChainId`,
`baseChainType = "evm"` and one `marketMakers[]` entry per supplied
maker, plus a `wallet` parameter if and only if the client has a
configured default wallet. -/
theorem claim_C8_price_levels_query (st : ApiState) (n : Int) (mms : List String)
    (net : HttpRequest → Response) (hs : st.session = some ()) (hn : 0 < n) :
    ((HashflowApi.get_price_levels st (.int n) mms net).requests.map
        (fun r => (r.method, r.url)) = [("GET", st.host ++ "/taker/v3/price-levels")])
    ∧ (st.wallet = Option.none →
      (HashflowApi.get_price_levels st (.int n) mms net).requests.map HttpRequest.params
        = [[("source", st.source), ("baseChainId", toString n), ("baseChainType", "evm")]
            ++ mms.map (fun m => ("marketMakers[]", m))])
    ∧ (∀ cw, st.wallet = some cw →
      (HashflowApi.get_price_levels st (.int n) mms net).requests.map HttpRequest.params
        = [[("source", st.source), ("baseChainId", toString n), ("baseChainType", "evm")]
            ++ mms.map (fun m => ("marketMakers[]", m)) ++ [("wallet", cw)]]) := by
  have hreq := get_price_levels_requests st (.int n) mms net (validate_chain_id_pos n hn) hs
  refine ⟨?_, ?_, ?_⟩
  · rw [hreq]
    rfl
  · intro hw
    rw [hreq]
    simp only [List.map_cons, List.map_nil, priceLevelsRequest]
    rw [hw, priceLevelsParams_expand_none]
    rfl
  · intro cw hw
    rw [hreq]
    simp only [List.map_cons, List.map_nil, priceLevelsRequest]
    rw [hw, priceLevelsParams_expand_some]
    rfl

/-- C8 witness: the documented scenario with a configured wallet. -/
theorem claim_C8_witness :
    (HashflowApi.get_price_levels stWallet (.int 1) ["mm4", "mm5"] net200).requests.map
        HttpRequest.params
      = [[("source", stWallet.source), ("baseChainId", toString (1 : Int)),
          ("baseChainType", "evm")]
          ++ (["mm4", "mm5"] : List String).map (fun m => ("marketMakers[]", m))
          ++ [("wallet", "0xCFG")]] :=
  (claim_C8_price_levels_query stWallet 1 ["mm4", "mm5"] net200 rfl (by decide)).2.2
    "0xCFG" rfl

/-- C10: the rfq entry of the outgoing body always contains the keys
`baseTokenAmount`, `quoteTokenAmount`, `marketMakers` and `feesBps`; when
the corresponding argument was not supplied, the key is present with
value `null` rather than omitted. -/
theorem claim_C10_rfq_optional_keys (st : ApiState) (cid : Int) (bt qt : String)
    (dst : Option Int) (bta qta wq eff : Option String) (mmq : Option (List String))
    (fees : Option Int) (dbg : Bool) (net : HttpRequest → Response) (t : String)
    (ht : resolveTrader wq st.wallet = some t) (hs : st.session = some ()) :
    rfq0Field (HashflowApi.request_quote st cid bt qt dst bta qta wq eff mmq fees dbg net)
        "baseTokenAmount" = some (optStr bta)
    ∧ rfq0Field (HashflowApi.request_quote st cid bt qt dst bta qta wq eff mmq fees dbg net)
        "quoteTokenAmount" = some (optStr qta)
    ∧ rfq0Field (HashflowApi.request_quote st cid bt qt dst bta qta wq eff mmq fees dbg net)
        "marketMakers" = some (optStrList mmq)
    ∧ rfq0Field (HashflowApi.request_quote st cid bt qt dst bta qta wq eff mmq fees dbg net)
        "feesBps" = some (optInt fees)
    ∧ optStr Option.none = Json.null
    ∧ optStrList Option.none = Json.null
    ∧ optInt Option.none = Json.null := by
  refine ⟨?_, ?_, ?_, ?_, rfl, rfl, rfl⟩
  · rw [request_quote_rfq0Field st cid bt qt dst bta qta wq eff mmq fees dbg net t
      "baseTokenAmount" ht hs]
    rfl
  · rw [request_quote_rfq0Field st cid bt qt dst bta qta wq eff mmq fees dbg net t
      "quoteTokenAmount" ht hs]
    rfl
  · rw [request_quote_rfq0Field st cid bt qt dst bta qta wq eff mmq fees dbg net t
      "marketMakers" ht hs]
    rfl
  · rw [request_quote_rfq0Field st cid bt qt dst bta qta wq eff mmq fees dbg net t
      "feesBps" ht hs]
    rfl

/-- C10 witness: with every optional argument omitted, all four keys are
present with value `null`. -/
theorem claim_C10_witness :
    rfq0Field (HashflowApi.request_quote stTaker 1 "0xB" "0xQ" Option.none Option.none
        Option.none (some "0xW") Option.none Option.none Option.none false net200)
      "baseTokenAmount" = some Json.null
    ∧ rfq0Field (HashflowApi.request_quote stTaker 1 "0xB" "0xQ" Option.none Option.none
        Option.none (some "0xW") Option.none Option.none Option.none false net200)
      "feesBps" = some Json.null :=
  let h := claim_C10_rfq_optional_keys stTaker 1 "0xB" "0xQ" Option.none Option.none
    Option.none (some "0xW") Option.none Option.none Option.none false net200 "0xW" rfl rfl
  ⟨h.1, h.2.2.2.1⟩

/-- C7 witness: constructing in wallet mode on staging yields a client
whose identity source is the constant "api" and whose default wallet is
the given name. -/
theorem claim_C7_witness :
    stStagingWallet.source = "api" ∧ stStagingWallet.wallet = some "0xW" :=
  ((claim_C7_init_contract "wallet" "0xW" "KEY" "staging").2.2 stStagingWallet rfl).1 rfl
